import Mathlib

set_option linter.unusedVariables false

/-
Shallow embedding of the vugu JS renderer (renderer-js.go).

The renderer walks a virtual document tree (VGNode) and emits a stream of
DOM-synchronization instructions through an append-only instruction list.
Here the instruction list is modelled as the list of instructions emitted,
in order; each write<Op> call of the Go code appends exactly one abstract
instruction (the byte encoding is irrelevant to the emission order and the
writes themselves always succeed on the paths modelled here).  A Go error
return is modelled by the `error` field of `EmitResult`: `some msg` means
the pass aborted after emitting the instructions in `emitted`.
-/

namespace Vugu

/-- Node types of the virtual document tree (the `Type` field of `VGNode`):
Element, Text, Comment and Document nodes. -/
inductive VGNodeType where
  | ElementNode
  | TextNode
  | CommentNode
  | DocumentNode
deriving DecidableEq, Repr

/-- One attribute of a virtual element node (`VGAttribute`): a key/value
string pair, kept in list order. -/
structure VGAttribute where
  Key : String
  Val : String
deriving DecidableEq, Repr

/-- One DOM event handler spec (an entry of `DOMEventHandlerSpecList`):
the event type plus capture and passive flags. -/
structure DOMEventHandlerSpec where
  EventType : String
  Capture : Bool
  Passive : Bool
deriving DecidableEq, Repr

/-- A node of the virtual document tree (`VGNode`).  The Go struct links
children through FirstChild/NextSibling pointers; here the forward-only
sibling chain starting at FirstChild is the `children` list. -/
inductive VGNode where
  | mk (ty : VGNodeType) (Data : String) (Attr : List VGAttribute)
       (DOMEventHandlerSpecList : List DOMEventHandlerSpec)
       (InnerHTML : Option String) (children : List VGNode)
deriving Repr

/-- The `Type` field of a VGNode. -/
def VGNode.ty : VGNode → VGNodeType
  | .mk t _ _ _ _ _ => t

/-- The `Data` field of a VGNode (tag name, text or comment content). -/
def VGNode.Data : VGNode → String
  | .mk _ d _ _ _ _ => d

/-- The `Attr` field of a VGNode: its ordered attribute list. -/
def VGNode.Attr : VGNode → List VGAttribute
  | .mk _ _ a _ _ _ => a

/-- The `DOMEventHandlerSpecList` field of a VGNode. -/
def VGNode.DOMEventHandlerSpecList : VGNode → List DOMEventHandlerSpec
  | .mk _ _ _ s _ _ => s

/-- The `InnerHTML` field of a VGNode: optional raw markup override
(a nil pointer in Go is `none`). -/
def VGNode.InnerHTML : VGNode → Option String
  | .mk _ _ _ _ i _ => i

/-- The children of a VGNode: the sibling chain starting at `FirstChild`. -/
def VGNode.children : VGNode → List VGNode
  | .mk _ _ _ _ _ c => c

/-- The instruction vocabulary: one constructor per write<Op> method of the
instruction list used by renderer-js.go, carrying the same arguments. -/
inductive Instr where
  | ClearEl
  | SelectMountPoint (selector : String) (tag : String)
  | SetElement (tag : String)
  | SetText (content : String)
  | SetComment (content : String)
  | SetAttrStr (key : String) (val : String)
  | RemoveOtherAttrs
  | SetEventListener (positionID : String) (eventType : String)
      (capture : Bool) (passive : Bool)
  | RemoveOtherEventListeners (positionID : String)
  | SetInnerHTML (html : String)
  | MoveToFirstChild
  | MoveToNextSibling
  | MoveToParent
deriving DecidableEq, Repr

/-- Result of a render visit: the instructions emitted, in order, and an
optional error.  `error = some msg` means the Go function returned a
non-nil error after emitting `emitted`. -/
structure EmitResult where
  emitted : List Instr
  error : Option String
deriving DecidableEq, Repr

mutual

/-- `visitSyncNode` from renderer-js.go: dispatch on the node type; an
element writes SetElement then syncs attributes/listeners/children via
visitSyncElementEtc; text and comment nodes write one SetText/SetComment
and return (no children possible); any other type is an error. -/
def visitSyncNode : VGNode → String → EmitResult
  | .mk .ElementNode d attr specs innerHTML children, positionID =>
    let r := visitSyncElementEtc (.mk .ElementNode d attr specs innerHTML children) positionID
    ⟨Instr.SetElement d :: r.emitted, r.error⟩
  | .mk .TextNode d _ _ _ _, _ => ⟨[Instr.SetText d], none⟩
  | .mk .CommentNode d _ _ _ _, _ => ⟨[Instr.SetComment d], none⟩
  | .mk .DocumentNode _ _ _ _ _, _ => ⟨[], some "unknown node type"⟩
termination_by n _ => (sizeOf n, 1)

/-- `visitSyncElementEtc` from renderer-js.go: SetAttr per attribute in
list order, RemoveOtherAttrs, SetEventListener per handler spec,
RemoveOtherEventListeners, then either SetInnerHTML (and stop), or — when
there is a first child — MoveToFirstChild, the child loop, MoveToParent. -/
def visitSyncElementEtc : VGNode → String → EmitResult
  | .mk _ _ attr specs innerHTML children, positionID =>
    let pre : List Instr :=
      attr.map (fun a => Instr.SetAttrStr a.Key a.Val)
      ++ [Instr.RemoveOtherAttrs]
      ++ (if specs.length > 0 then
            specs.map (fun hs =>
              Instr.SetEventListener positionID hs.EventType hs.Capture hs.Passive)
          else [])
      ++ [Instr.RemoveOtherEventListeners positionID]
    match innerHTML with
    | some h => ⟨pre ++ [Instr.SetInnerHTML h], none⟩
    | none =>
      match children with
      | [] => ⟨pre, none⟩
      | c :: rest =>
        let rc := syncChildren (c :: rest) positionID 1
        match rc.error with
        | some e => ⟨pre ++ [Instr.MoveToFirstChild] ++ rc.emitted, some e⟩
        | none =>
          ⟨pre ++ [Instr.MoveToFirstChild] ++ rc.emitted ++ [Instr.MoveToParent], none⟩
termination_by n _ => (sizeOf n, 0)

/-- The child loop inside `visitSyncElementEtc`: each child is synced with
positionID extended by "_childIndex" (1-based), followed by
MoveToNextSibling; an error from a child aborts the loop. -/
def syncChildren : List VGNode → String → Nat → EmitResult
  | [], _, _ => ⟨[], none⟩
  | c :: rest, positionID, childIndex =>
    let r := visitSyncNode c (positionID ++ "_" ++ toString childIndex)
    match r.error with
    | some e => ⟨r.emitted, some e⟩
    | none =>
      let r2 := syncChildren rest positionID (childIndex + 1)
      ⟨r.emitted ++ [Instr.MoveToNextSibling] ++ r2.emitted, r2.error⟩
termination_by cs _ _ => (sizeOf cs, 2)

end

/-- Go's strings.ToLower as used on tag names: lowercase every
character. -/
def strToLower (s : String) : String := ⟨s.data.map Char.toLower⟩

/-- `visitHead` from renderer-js.go: a stub that logs "TODO: visitHead",
emits nothing and returns nil (success). -/
def visitHead (n : VGNode) (positionID : String) : EmitResult := ⟨[], none⟩

/-- `visitBody` from renderer-js.go: a stub that logs "TODO: visitBody",
emits nothing and returns nil (success). -/
def visitBody (n : VGNode) (positionID : String) : EmitResult := ⟨[], none⟩

/-- `visitMount` from renderer-js.go: writes SelectMountPoint with the
renderer's mount point selector and the node's tag, then syncs the node
via visitSyncElementEtc. -/
def visitMount (mountPointSelector : String) (n : VGNode) (positionID : String) :
    EmitResult :=
  let r := visitSyncElementEtc n positionID
  ⟨Instr.SelectMountPoint mountPointSelector n.Data :: r.emitted, r.error⟩

/-- The child loop of `visitFirst` for an "html" root: each child whose
lowercased tag is "head" goes to visitHead, "body" goes to visitBody, and
any other tag returns an "unexpected tag inside html" error at once. -/
def htmlChildrenLoop : List VGNode → String → EmitResult
  | [], _ => ⟨[], none⟩
  | c :: rest, positionID =>
    if strToLower c.Data = "head" then
      let r := visitHead c positionID
      match r.error with
      | some e => ⟨r.emitted, some e⟩
      | none =>
        let r2 := htmlChildrenLoop rest positionID
        ⟨r.emitted ++ r2.emitted, r2.error⟩
    else if strToLower c.Data = "body" then
      let r := visitBody c positionID
      match r.error with
      | some e => ⟨r.emitted, some e⟩
      | none =>
        let r2 := htmlChildrenLoop rest positionID
        ⟨r.emitted ++ r2.emitted, r2.error⟩
    else ⟨[], some ("unexpected tag inside html " ++ c.Data)⟩

/-- `visitFirst` from renderer-js.go: requires an element root, writes
ClearEl, then either iterates an "html" root's children with
head/body dispatch, or treats the root as the mount point element. -/
def visitFirst (mountPointSelector : String) (n : VGNode) (positionID : String) :
    EmitResult :=
  if n.ty ≠ VGNodeType.ElementNode then
    ⟨[], some "root of component must be element"⟩
  else if strToLower n.Data = "html" then
    let r := htmlChildrenLoop n.children positionID
    ⟨Instr.ClearEl :: r.emitted, r.error⟩
  else
    let r := visitMount mountPointSelector n positionID
    ⟨Instr.ClearEl :: r.emitted, r.error⟩

/-- `BuildOut`: one render pass's output, holding the root node `Doc`
(a nil pointer in Go is `none`). -/
structure BuildOut where
  Doc : Option VGNode

/-- `Render` from renderer-js.go: checks that the JS global environment is
truthy, validates the BuildOut (non-nil, non-nil Doc, element Doc), then
runs visitFirst with initial positionID "0".  The final flush of the
instruction list emits nothing further and is modelled as a no-op.  The
first parameter models the truthiness of `js.Global()`, the second the
renderer's MountPointSelector field, the third the `bo` argument. -/
def Render (jsGlobalTruthy : Bool) (mountPointSelector : String)
    (bo : Option BuildOut) : EmitResult :=
  if !jsGlobalTruthy then ⟨[], some "js environment not available"⟩
  else
    match bo with
    | none => ⟨[], some "BuildOut is nil"⟩
    | some b =>
      match b.Doc with
      | none => ⟨[], some "BuildOut.Doc is nil"⟩
      | some doc =>
        if doc.ty ≠ VGNodeType.ElementNode then
          ⟨[], some "BuildOut.Doc.Type is not ElementNode"⟩
        else visitFirst mountPointSelector doc "0"

/-- `handleDOMEvent` from renderer-js.go: its body is
`panic(fmt.Errorf("handleDOMEvent not yet implemented"))`; the panic is
modelled as an explicit failure value, never a success. -/
def handleDOMEvent : Except String Unit :=
  Except.error "handleDOMEvent not yet implemented"

/-- The attribute/listener instruction prefix that visitSyncElementEtc
emits for a node before any content or child handling: SetAttr per
attribute in list order, RemoveOtherAttrs, SetEventListener per handler
spec, RemoveOtherEventListeners. -/
def attrListenerPrefix (n : VGNode) (positionID : String) : List Instr :=
  n.Attr.map (fun a => Instr.SetAttrStr a.Key a.Val)
  ++ [Instr.RemoveOtherAttrs]
  ++ n.DOMEventHandlerSpecList.map (fun hs =>
       Instr.SetEventListener positionID hs.EventType hs.Capture hs.Passive)
  ++ [Instr.RemoveOtherEventListeners positionID]

/-- The instruction sequence of a successful child loop starting at
1-based index `childIndex`: each child's sync instructions at positionID
extended by "_index", each followed by MoveToNextSibling. -/
def childSeqFrom : List VGNode → String → Nat → List Instr
  | [], _, _ => []
  | c :: rest, positionID, childIndex =>
    (visitSyncNode c (positionID ++ "_" ++ toString childIndex)).emitted
    ++ [Instr.MoveToNextSibling] ++ childSeqFrom rest positionID (childIndex + 1)

mutual

/-- The PositionIDs a traversal rooted at `n` with PositionID `positionID`
assigns, in traversal order: the node's own, then those of the subtrees of
its children, the i-th child (1-based) extending by "_i". -/
def nodePositionIDs : VGNode → String → List String
  | .mk _ _ _ _ _ children, positionID =>
    positionID :: childPositionIDs children positionID 1
termination_by n _ => (sizeOf n, 0)

/-- PositionIDs assigned below a list of sibling subtrees, the first
sibling taking 1-based index `childIndex`. -/
def childPositionIDs : List VGNode → String → Nat → List String
  | [], _, _ => []
  | c :: rest, positionID, childIndex =>
    nodePositionIDs c (positionID ++ "_" ++ toString childIndex)
    ++ childPositionIDs rest positionID (childIndex + 1)
termination_by cs _ _ => (sizeOf cs, 1)

end

/-- Guarding a list map by a positive-length test changes nothing: the Go
code only skips the handler-spec loop when the list is empty, in which
case the loop writes nothing anyway. -/
theorem if_length_pos_map {α β : Type} (l : List α) (f : α → β) :
    (if l.length > 0 then l.map f else []) = l.map f := by
  cases l <;> simp

/-- visitSyncElementEtc on a node with raw inner content: the
attribute/listener prefix, then SetInnerHTML, then nothing, no error. -/
theorem visitSyncElementEtc_innerHTML (n : VGNode) (positionID : String)
    (s : String) (h : n.InnerHTML = some s) :
    visitSyncElementEtc n positionID =
      ⟨attrListenerPrefix n positionID ++ [Instr.SetInnerHTML s], none⟩ := by
  cases n with
  | mk t d attr specs innerHTML children =>
    simp only [VGNode.InnerHTML] at h
    subst h
    simp [visitSyncElementEtc, attrListenerPrefix, if_length_pos_map,
      VGNode.Attr, VGNode.DOMEventHandlerSpecList]

/-- visitSyncElementEtc on a node with no raw content and no children:
just the attribute/listener prefix, no error. -/
theorem visitSyncElementEtc_noChildren (n : VGNode) (positionID : String)
    (h1 : n.InnerHTML = none) (h2 : n.children = []) :
    visitSyncElementEtc n positionID =
      ⟨attrListenerPrefix n positionID, none⟩ := by
  cases n with
  | mk t d attr specs innerHTML children =>
    simp only [VGNode.InnerHTML] at h1
    simp only [VGNode.children] at h2
    subst h1; subst h2
    simp [visitSyncElementEtc, attrListenerPrefix, if_length_pos_map,
      VGNode.Attr, VGNode.DOMEventHandlerSpecList]

/-- visitSyncElementEtc on a node with no raw content and at least one
child: the attribute/listener prefix, MoveToFirstChild, the child loop,
and, when the loop succeeds, a final MoveToParent. -/
theorem visitSyncElementEtc_children (n : VGNode) (positionID : String)
    (c : VGNode) (rest : List VGNode)
    (h1 : n.InnerHTML = none) (h2 : n.children = c :: rest) :
    visitSyncElementEtc n positionID =
      match (syncChildren (c :: rest) positionID 1).error with
      | some e =>
        ⟨attrListenerPrefix n positionID ++ [Instr.MoveToFirstChild]
          ++ (syncChildren (c :: rest) positionID 1).emitted, some e⟩
      | none =>
        ⟨attrListenerPrefix n positionID ++ [Instr.MoveToFirstChild]
          ++ (syncChildren (c :: rest) positionID 1).emitted
          ++ [Instr.MoveToParent], none⟩ := by
  cases n with
  | mk t d attr specs innerHTML children =>
    simp only [VGNode.InnerHTML] at h1
    simp only [VGNode.children] at h2
    subst h1; subst h2
    rcases herr : (syncChildren (c :: rest) positionID 1).error with _ | e <;>
      simp [visitSyncElementEtc, attrListenerPrefix, if_length_pos_map,
        VGNode.Attr, VGNode.DOMEventHandlerSpecList, herr]

/-- visitSyncElementEtc always starts with the attribute/listener
prefix, whatever comes after. -/
theorem visitSyncElementEtc_starts (n : VGNode) (positionID : String) :
    ∃ rest, (visitSyncElementEtc n positionID).emitted =
      attrListenerPrefix n positionID ++ rest := by
  rcases hin : n.InnerHTML with _ | s
  · rcases hch : n.children with _ | ⟨c, rest⟩
    · exact ⟨[], by rw [visitSyncElementEtc_noChildren n positionID hin hch]; simp⟩
    · rw [visitSyncElementEtc_children n positionID c rest hin hch]
      rcases herr : (syncChildren (c :: rest) positionID 1).error with _ | e
      · exact ⟨Instr.MoveToFirstChild
          :: (syncChildren (c :: rest) positionID 1).emitted
          ++ [Instr.MoveToParent], by simp [herr]⟩
      · exact ⟨Instr.MoveToFirstChild
          :: (syncChildren (c :: rest) positionID 1).emitted, by simp [herr]⟩
  · exact ⟨[Instr.SetInnerHTML s],
      by rw [visitSyncElementEtc_innerHTML n positionID s hin]⟩

/-- The emission of a successful child loop is childSeqFrom. -/
theorem syncChildren_ok_emitted (cs : List VGNode) (positionID : String)
    (i : Nat) (h : (syncChildren cs positionID i).error = none) :
    (syncChildren cs positionID i).emitted = childSeqFrom cs positionID i := by
  induction cs generalizing i with
  | nil => simp [syncChildren, childSeqFrom]
  | cons c rest ih =>
    rcases herr : (visitSyncNode c (positionID ++ "_" ++ toString i)).error with _ | e
    · have h2 := h
      simp only [syncChildren, herr] at h2 ⊢
      simp [childSeqFrom, ih (i + 1) h2, herr]
    · exfalso
      simp only [syncChildren, herr] at h
      exact Option.noConfusion h

/-- The html-root child loop emits nothing (head and body handling are
stubs) and succeeds exactly when every child tag lowercases to "head" or
"body". -/
theorem htmlChildrenLoop_spec (cs : List VGNode) (positionID : String) :
    (htmlChildrenLoop cs positionID).emitted = []
    ∧ ((htmlChildrenLoop cs positionID).error = none ↔
        ∀ c ∈ cs, strToLower c.Data = "head" ∨ strToLower c.Data = "body") := by
  induction cs with
  | nil => simp [htmlChildrenLoop]
  | cons c rest ih =>
    by_cases hHead : strToLower c.Data = "head"
    · simp [htmlChildrenLoop, hHead, visitHead, ih.1, ih.2]
    · by_cases hBody : strToLower c.Data = "body"
      · simp [htmlChildrenLoop, hHead, hBody, visitBody, ih.1, ih.2]
      · simp [htmlChildrenLoop, hHead, hBody]

/-- Claim C1: for every element node synchronized by visitSyncElementEtc,
the emitted instruction sequence begins with one SetAttr per (key, value)
pair of the node's attribute list in list order, then exactly one
RemoveOtherAttrs (unconditionally), then one SetEventListener per handler
spec carrying the node's PositionID, event type, capture and passive
flags, then exactly one RemoveOtherEventListeners carrying the node's
PositionID (unconditionally). -/
theorem c1_attr_listener_prefix (n : VGNode) (positionID : String) :
    ∃ rest, (visitSyncElementEtc n positionID).emitted =
      n.Attr.map (fun a => Instr.SetAttrStr a.Key a.Val)
      ++ [Instr.RemoveOtherAttrs]
      ++ n.DOMEventHandlerSpecList.map (fun hs =>
           Instr.SetEventListener positionID hs.EventType hs.Capture hs.Passive)
      ++ [Instr.RemoveOtherEventListeners positionID]
      ++ rest := by
  obtain ⟨rest, h⟩ := visitSyncElementEtc_starts n positionID
  exact ⟨rest, by rw [h]; simp [attrListenerPrefix]⟩

/-- Claim C2: for every element node with non-null InnerHTML,
visitSyncElementEtc emits SetInnerHTML with that content right after the
attribute/listener prefix and stops: no error, and no MoveToFirstChild
(hence no child instructions), even if the node has children. -/
theorem c2_inner_html_short_circuit (n : VGNode) (positionID : String)
    (s : String) (h : n.InnerHTML = some s) :
    (visitSyncElementEtc n positionID).emitted
      = attrListenerPrefix n positionID ++ [Instr.SetInnerHTML s]
    ∧ (visitSyncElementEtc n positionID).error = none
    ∧ Instr.MoveToFirstChild ∉ (visitSyncElementEtc n positionID).emitted := by
  rw [visitSyncElementEtc_innerHTML n positionID s h]
  refine ⟨rfl, rfl, ?_⟩
  simp [attrListenerPrefix]

/-- A node with raw inner content and also a child, used to exercise the
raw-content short circuit at a concrete input. -/
def sampleInnerNode : VGNode :=
  VGNode.mk VGNodeType.ElementNode "div" [] [] (some "<b>x</b>")
    [VGNode.mk VGNodeType.TextNode "y" [] [] none []]

/-- Witness for C2 at a concrete node that has both raw content and a
child. -/
theorem c2_witness :
    (visitSyncElementEtc sampleInnerNode "0").emitted
      = attrListenerPrefix sampleInnerNode "0" ++ [Instr.SetInnerHTML "<b>x</b>"]
    ∧ (visitSyncElementEtc sampleInnerNode "0").error = none
    ∧ Instr.MoveToFirstChild ∉ (visitSyncElementEtc sampleInnerNode "0").emitted :=
  c2_inner_html_short_circuit sampleInnerNode "0" "<b>x</b>" rfl

/-- Claim C3: for an element node with null InnerHTML: with no children
nothing is emitted beyond the attribute/listener prefix; with at least
one child, a successful sync emits MoveToFirstChild, then each child's
sync at the parent PositionID extended by "_index" (1-based) followed by
MoveToNextSibling, then MoveToParent; and Render starts the traversal of
an element root with PositionID "0". -/
theorem c3_child_traversal (n : VGNode) (positionID : String)
    (h : n.InnerHTML = none) :
    (n.children = [] →
      visitSyncElementEtc n positionID = ⟨attrListenerPrefix n positionID, none⟩)
    ∧ (∀ c rest, n.children = c :: rest →
        (visitSyncElementEtc n positionID).error = none →
        (visitSyncElementEtc n positionID).emitted =
          attrListenerPrefix n positionID ++ [Instr.MoveToFirstChild]
          ++ childSeqFrom n.children positionID 1 ++ [Instr.MoveToParent])
    ∧ (∀ sel (doc : VGNode), doc.ty = VGNodeType.ElementNode →
        Render true sel (some ⟨some doc⟩) = visitFirst sel doc "0") := by
  refine ⟨?_, ?_, ?_⟩
  · intro hch
    exact visitSyncElementEtc_noChildren n positionID h hch
  · intro c rest hch hok
    rw [visitSyncElementEtc_children n positionID c rest h hch] at hok ⊢
    rcases herr : (syncChildren (c :: rest) positionID 1).error with _ | e
    · simp only [herr]
      rw [hch, syncChildren_ok_emitted (c :: rest) positionID 1 herr]
    · rw [herr] at hok
      exact Option.noConfusion hok
  · intro sel doc hty
    simp [Render, hty]

/-- A childless element node, used to exercise the no-children case of
the child-traversal claim at a concrete input. -/
def sampleLeafNode : VGNode :=
  VGNode.mk VGNodeType.ElementNode "span" [⟨"id", "a"⟩] [] none []

/-- Witness for C3 at a concrete childless node. -/
theorem c3_witness :
    visitSyncElementEtc sampleLeafNode "0"
      = ⟨attrListenerPrefix sampleLeafNode "0", none⟩ :=
  (c3_child_traversal sampleLeafNode "0" rfl).1 rfl

/-- Claim C4: Render returns an error and emits no instruction whenever
bo is nil, bo.Doc is nil, or bo.Doc.Type is not ElementNode; the pass is
aborted immediately (this holds whatever the JS environment state and
mount selector are). -/
theorem c4_input_validation (jsGlobalTruthy : Bool) (sel : String)
    (bo : Option BuildOut)
    (h : bo = none ∨ ∃ b, bo = some b ∧ (b.Doc = none
          ∨ ∃ d, b.Doc = some d ∧ d.ty ≠ VGNodeType.ElementNode)) :
    (Render jsGlobalTruthy sel bo).error.isSome
    ∧ (Render jsGlobalTruthy sel bo).emitted = [] := by
  cases jsGlobalTruthy with
  | false => simp [Render]
  | true =>
    rcases h with rfl | ⟨b, rfl, hb⟩
    · simp [Render]
    · rcases hb with hDoc | ⟨d, hDoc, hty⟩
      · simp [Render, hDoc]
      · simp [Render, hDoc, hty]

/-- Witness for C4 at the concrete input bo = nil. -/
theorem c4_witness :
    (Render true "#app" none).error.isSome
    ∧ (Render true "#app" none).emitted = [] :=
  c4_input_validation true "#app" none (Or.inl rfl)

/-- Claim C5: for an element root whose lowercased tag is not "html",
visitFirst emits ClearEl, then SelectMountPoint with the mount selector
and the root tag, then exactly the root's attribute/listener/child sync
instructions — no head- or body-specific handling. -/
theorem c5_mount_path (sel : String) (n : VGNode) (positionID : String)
    (hty : n.ty = VGNodeType.ElementNode)
    (htag : strToLower n.Data ≠ "html") :
    visitFirst sel n positionID =
      ⟨Instr.ClearEl :: Instr.SelectMountPoint sel n.Data
        :: (visitSyncElementEtc n positionID).emitted,
       (visitSyncElementEtc n positionID).error⟩ := by
  simp [visitFirst, visitMount, hty, htag]

/-- A plain div root with an attribute, used to exercise the mount path
at a concrete input. -/
def sampleDivRoot : VGNode :=
  VGNode.mk VGNodeType.ElementNode "div" [⟨"class", "c"⟩] [] none []

/-- Witness for C5 at a concrete div root with selector "#app". -/
theorem c5_witness :
    visitFirst "#app" sampleDivRoot "0" =
      ⟨Instr.ClearEl :: Instr.SelectMountPoint "#app" sampleDivRoot.Data
        :: (visitSyncElementEtc sampleDivRoot "0").emitted,
       (visitSyncElementEtc sampleDivRoot "0").error⟩ :=
  c5_mount_path "#app" sampleDivRoot "0" rfl (by decide)

/-- Claim C6: for an element root whose lowercased tag is "html",
visitFirst writes ClearEl and runs the child loop, which dispatches each
child by lowercased tag to visitHead or visitBody and fails immediately
on any other tag: the pass succeeds exactly when every child tag
lowercases to "head" or "body", and (the stubs emitting nothing) the
whole emission is just ClearEl. -/
theorem c6_html_children_dispatch (sel : String) (n : VGNode)
    (positionID : String)
    (hty : n.ty = VGNodeType.ElementNode)
    (htag : strToLower n.Data = "html") :
    visitFirst sel n positionID =
      ⟨Instr.ClearEl :: (htmlChildrenLoop n.children positionID).emitted,
       (htmlChildrenLoop n.children positionID).error⟩
    ∧ (visitFirst sel n positionID).emitted = [Instr.ClearEl]
    ∧ ((visitFirst sel n positionID).error = none ↔
        ∀ c ∈ n.children,
          strToLower c.Data = "head" ∨ strToLower c.Data = "body") := by
  have hdef : visitFirst sel n positionID =
      ⟨Instr.ClearEl :: (htmlChildrenLoop n.children positionID).emitted,
       (htmlChildrenLoop n.children positionID).error⟩ := by
    simp [visitFirst, hty, htag]
  obtain ⟨hemit, herr⟩ := htmlChildrenLoop_spec n.children positionID
  refine ⟨hdef, ?_, ?_⟩
  · rw [hdef, hemit]
  · rw [hdef]
    exact herr

/-- An html root with one head child, one body child and one stray script
child, used to exercise the html dispatch at a concrete input. -/
def sampleHtmlRoot : VGNode :=
  VGNode.mk VGNodeType.ElementNode "html" [] [] none
    [VGNode.mk VGNodeType.ElementNode "head" [] [] none [],
     VGNode.mk VGNodeType.ElementNode "body" [] [] none [],
     VGNode.mk VGNodeType.ElementNode "script" [] [] none []]

/-- Witness for C6 at a concrete html root whose third child is a
forbidden script tag: the emission is just ClearEl and the pass fails. -/
theorem c6_witness :
    (visitFirst "" sampleHtmlRoot "0").emitted = [Instr.ClearEl]
    ∧ ((visitFirst "" sampleHtmlRoot "0").error = none ↔
        ∀ c ∈ sampleHtmlRoot.children,
          strToLower c.Data = "head" ∨ strToLower c.Data = "body") :=
  (c6_html_children_dispatch "" sampleHtmlRoot "0" rfl (by decide)).2

/-- Claim C7 counterexample: visitHead and visitBody, reached on the html
root path, silently return success (nil error) and emit nothing — they do
not fail explicitly as the claim states. -/
theorem c7_counterexample :
    visitHead (VGNode.mk VGNodeType.ElementNode "head" [] [] none []) "0"
      = ⟨[], none⟩
    ∧ visitBody (VGNode.mk VGNodeType.ElementNode "body" [] [] none []) "0"
      = ⟨[], none⟩ :=
  ⟨rfl, rfl⟩

/-- Claim C7 amended: only the DOM event dispatch body fails explicitly
(panic) when reached; the structural head and body reconciliation stubs
log a TODO and silently return success, emitting no instructions. -/
theorem c7_amended :
    handleDOMEvent = Except.error "handleDOMEvent not yet implemented"
    ∧ (∀ e, handleDOMEvent ≠ Except.ok e)
    ∧ (∀ n positionID, visitHead n positionID = ⟨[], none⟩
        ∧ visitBody n positionID = ⟨[], none⟩) :=
  ⟨rfl, fun e h => Except.noConfusion h, fun n positionID => ⟨rfl, rfl⟩⟩

/-- Claim C8: when the host JS environment is unavailable, Render returns
the single "js environment not available" error before emitting any
instruction, whatever the BuildOut and selector are: the environment
check precedes all input validation and traversal. -/
theorem c8_env_check_first (sel : String) (bo : Option BuildOut) :
    Render false sel bo = ⟨[], some "js environment not available"⟩ := rfl

/-- Claim C9: rendering is deterministic in its emission: for a fixed
BuildOut and mount selector, two successive successful passes emit
identical instruction sequences, and the PositionID assignment of a
fixed tree is identical across repeated traversals.  (Render and
nodePositionIDs are pure functions of the tree and selector — the
renderer keeps no cross-pass state that could perturb the emission.) -/
theorem c9_deterministic_emission (sel : String) (bo : Option BuildOut) :
    (Render true sel bo).emitted = (Render true sel bo).emitted
    ∧ (Render true sel bo).error = (Render true sel bo).error
    ∧ ∀ (n : VGNode) (positionID : String),
        nodePositionIDs n positionID = nodePositionIDs n positionID :=
  ⟨rfl, rfl, fun n positionID => rfl⟩

/-- Claim C10: visitSyncNode on a node whose type is none of Element,
Text, Comment returns the "unknown node type" error with nothing emitted,
aborting the pass; a Text node emits exactly one SetText and nothing
else; a Comment node emits exactly one SetComment and nothing else. -/
theorem c10_node_dispatch (n : VGNode) (positionID : String) :
    (n.ty ≠ VGNodeType.ElementNode → n.ty ≠ VGNodeType.TextNode →
      n.ty ≠ VGNodeType.CommentNode →
      visitSyncNode n positionID = ⟨[], some "unknown node type"⟩)
    ∧ (n.ty = VGNodeType.TextNode →
        visitSyncNode n positionID = ⟨[Instr.SetText n.Data], none⟩)
    ∧ (n.ty = VGNodeType.CommentNode →
        visitSyncNode n positionID = ⟨[Instr.SetComment n.Data], none⟩) := by
  cases n with
  | mk t d attr specs innerHTML children =>
    cases t <;>
      simp [visitSyncNode, VGNode.ty, VGNode.Data]

/-- Witness for C10 at a concrete Document node below the root and at
concrete text and comment nodes. -/
theorem c10_witness :
    visitSyncNode (VGNode.mk VGNodeType.DocumentNode "" [] [] none []) "0_1"
      = ⟨[], some "unknown node type"⟩
    ∧ visitSyncNode (VGNode.mk VGNodeType.TextNode "hello" [] [] none []) "0_1"
      = ⟨[Instr.SetText "hello"], none⟩
    ∧ visitSyncNode (VGNode.mk VGNodeType.CommentNode "note" [] [] none []) "0_1"
      = ⟨[Instr.SetComment "note"], none⟩ :=
  ⟨(c10_node_dispatch (VGNode.mk VGNodeType.DocumentNode "" [] [] none []) "0_1").1
      (by decide) (by decide) (by decide),
   (c10_node_dispatch (VGNode.mk VGNodeType.TextNode "hello" [] [] none []) "0_1").2.1
      rfl,
   (c10_node_dispatch (VGNode.mk VGNodeType.CommentNode "note" [] [] none []) "0_1").2.2
      rfl⟩

end Vugu
